import Mathlib

/-!
Verification of `src/invoice_service.py` (invoice pricing pipeline).

Shallow embedding: Python `float` money amounts are modelled as exact
rationals (`ℚ`), `int` quantities as `ℤ`, strings as `String`, the
`Optional[str]` coupon as `Option String`, and the `ValueError` raised by
`compute_total` as `Except String`.  Python's truthiness tests on strings
(`not s`) become `s = ""`; `s.strip()` becomes the executable `strip` below
(drop whitespace from both ends).  Dictionary lookups (`dict.get`) become
total functions returning `Option`.
-/

namespace InvoiceService

/-- `LineItem` dataclass from the source. -/
structure LineItem where
  sku : String
  category : String
  unit_price : ℚ
  qty : ℤ
  fragile : Bool := false
deriving DecidableEq, Repr

/-- `Invoice` dataclass from the source. -/
structure Invoice where
  invoice_id : String
  customer_id : String
  country : String
  membership : String
  coupon : Option String
  items : List LineItem
deriving DecidableEq, Repr

/-- Python's `str.strip()`: remove whitespace from both ends of the string
(modelled over the character list so that it evaluates by reduction). -/
def strip (s : String) : String :=
  ⟨((s.data.dropWhile Char.isWhitespace).reverse.dropWhile Char.isWhitespace).reverse⟩

/-- The static coupon rate table `self._coupon_rate` (`dict.get` semantics). -/
def coupon_rate (code : String) : Option ℚ :=
  if code = "WELCOME10" then some (10/100)
  else if code = "VIP20" then some (20/100)
  else if code = "STUDENT5" then some (5/100)
  else none

/-- The per-item checks in the loop body of `InvoiceService._validate`
(lines 40–48): each `if` contributes its problem string in order. -/
def validateItem (it : LineItem) : List String :=
  (if it.sku = "" then ["Item sku is missing"] else []) ++
  (if it.qty ≤ 0 then ["Invalid qty for " ++ it.sku] else []) ++
  (if it.unit_price < 0 then ["Invalid price for " ++ it.sku] else []) ++
  (if it.category ∈ ["book", "food", "electronics", "other"] then []
   else ["Unknown category for " ++ it.sku])

/-- `InvoiceService._validate` (lines 29–49).  The `inv is None` branch is
unreachable in the embedding because `Invoice` is a value, not a nullable
reference; the remaining checks accumulate problem strings in source order. -/
def validate (inv : Invoice) : List String :=
  (if inv.invoice_id = "" then ["Missing invoice_id"] else []) ++
  (if inv.customer_id = "" then ["Missing customer_id"] else []) ++
  (if inv.items = [] then ["Invoice must contain items"] else []) ++
  inv.items.flatMap validateItem

/-- `InvoiceService._calculate_base_costs` (lines 68–71): the pair
(subtotal, fragile fee). -/
def calculate_base_costs (items : List LineItem) : ℚ × ℚ :=
  (items.foldr (fun it acc => it.unit_price * (it.qty : ℚ) + acc) 0,
   items.foldr (fun it acc => (if it.fragile then 5 * (it.qty : ℚ) else 0) + acc) 0)

/-- The `rates` dict of `InvoiceService._calculate_shipping` (lines 74–79)
with its `rates.get(country, rates["DEFAULT"])` lookup: pairs
(threshold, fee). -/
def shipping_rates (country : String) : ℚ × ℚ :=
  if country = "TH" then (500, 60)
  else if country = "JP" then (4000, 600)
  else if country = "US" then (0, 0)
  else (200, 25)

/-- `InvoiceService._calculate_shipping` (lines 73–86). -/
def calculate_shipping (country : String) (subtotal : ℚ) : ℚ :=
  if country = "US" then
    if subtotal < 100 then 15
    else if subtotal < 300 then 8 else 0
  else
    let tf := shipping_rates country
    if subtotal < tf.1 then tf.2 else 0

/-- The `tier_rates` dict of `_calculate_discount` (line 92), with
`inv.membership in tier_rates` / indexing modelled as an `Option` lookup. -/
def tier_rates (membership : String) : Option ℚ :=
  if membership = "gold" then some (3/100)
  else if membership = "platinum" then some (5/100)
  else none

/-- The tier part of `InvoiceService._calculate_discount` (lines 92–96):
membership rate if present, else a flat 20 when subtotal > 3000, else 0. -/
def tier_discount (membership : String) (subtotal : ℚ) : ℚ :=
  match tier_rates membership with
  | some r => subtotal * r
  | none => if subtotal > 3000 then 20 else 0

/-- `InvoiceService._calculate_discount` (lines 88–106).  Python's
`if inv.coupon and inv.coupon.strip():` is true exactly when the coupon is
present, non-empty, and non-blank after stripping. -/
def calculate_discount (inv : Invoice) (subtotal : ℚ) : ℚ × List String :=
  let d := tier_discount inv.membership subtotal
  match inv.coupon with
  | none => (d, [])
  | some c =>
    if c ≠ "" ∧ strip c ≠ "" then
      match coupon_rate (strip c) with
      | some r => (d + subtotal * r, [])
      | none => (d, ["Unknown coupon"])
    else (d, [])

/-- `InvoiceService._calculate_tax` (lines 108–111). -/
def calculate_tax (country : String) (taxable_amount : ℚ) : ℚ :=
  let rate : ℚ :=
    if country = "TH" then 7/100
    else if country = "JP" then 10/100
    else if country = "US" then 8/100
    else 5/100
  taxable_amount * rate

/-- `InvoiceService.compute_total` (lines 51–66).  `raise ValueError(...)`
becomes `Except.error`; success returns the (total, warnings) pair. -/
def compute_total (inv : Invoice) : Except String (ℚ × List String) :=
  let problems := validate inv
  if problems ≠ [] then
    Except.error (String.intercalate "; " problems)
  else
    let bc := calculate_base_costs inv.items
    let subtotal := bc.1
    let fragile_fee := bc.2
    let dw := calculate_discount inv subtotal
    let discount := dw.1
    let warnings := dw.2
    let shipping := calculate_shipping inv.country subtotal
    let tax := calculate_tax inv.country (subtotal - discount)
    let total := max 0 (subtotal + shipping + fragile_fee + tax - discount)
    let warnings :=
      if subtotal > 10000 ∧ inv.membership ∉ (["gold", "platinum"] : List String)
      then warnings ++ ["Consider membership upgrade"]
      else warnings
    Except.ok (total, warnings)

/-- The invoice of the C1 scenario: one item, sku "SKU1", category "book",
unit price 100, qty 1, not fragile; country "US", membership "none",
no coupon. -/
def c1_invoice : Invoice :=
  { invoice_id := "1", customer_id := "C1", country := "US",
    membership := "none", coupon := none,
    items := [{ sku := "SKU1", category := "book", unit_price := 100,
                qty := 1, fragile := false }] }

/-- The invoice of the C5 scenario: one item, unit price 1000, qty 1,
category "book", not fragile; country "TH", membership "gold",
coupon "VIP20". -/
def c5_invoice : Invoice :=
  { invoice_id := "2", customer_id := "C2", country := "TH",
    membership := "gold", coupon := some "VIP20",
    items := [{ sku := "SKU1", category := "book", unit_price := 1000,
                qty := 1, fragile := false }] }

/-- The invoice of the C3 scenario: an empty items list (all other fields
well-formed). -/
def c3_invoice : Invoice :=
  { invoice_id := "3", customer_id := "C3", country := "TH",
    membership := "none", coupon := none, items := [] }

/-- The invoice of the C7 scenario: unknown coupon code "FOO" on an
otherwise plain invoice. -/
def c7_invoice : Invoice :=
  { invoice_id := "7", customer_id := "C7", country := "US",
    membership := "none", coupon := some "FOO",
    items := [{ sku := "SKU1", category := "book", unit_price := 100,
                qty := 1, fragile := false }] }

/-- The invoice of the C8 scenario: subtotal 11000 with membership "none". -/
def c8_invoice : Invoice :=
  { invoice_id := "8", customer_id := "C8", country := "US",
    membership := "none", coupon := none,
    items := [{ sku := "SKU1", category := "book", unit_price := 11000,
                qty := 1, fragile := false }] }

/-- The tier component of the discount as the spec words it: 3% of subtotal
for membership "gold", 5% for "platinum", else a flat 20 when subtotal
exceeds 3000, else 0 (membership takes precedence; mutually exclusive with
the flat rule).  Stated from the spec, to be compared with
`calculate_discount`. -/
def spec_tier_component (membership : String) (subtotal : ℚ) : ℚ :=
  if membership = "gold" then subtotal * (3/100)
  else if membership = "platinum" then subtotal * (5/100)
  else if subtotal > 3000 then 20 else 0

/-- The coupon component of the discount as the spec words it: when the
trimmed coupon code is in the rate table, subtotal times that code's rate,
otherwise 0.  Stated from the spec, to be compared with
`calculate_discount`. -/
def spec_coupon_component (coupon : Option String) (subtotal : ℚ) : ℚ :=
  match coupon with
  | none => 0
  | some c =>
    match coupon_rate (strip c) with
    | some r => subtotal * r
    | none => 0

/-- Stripping the empty string yields the empty string. -/
lemma strip_empty : strip "" = "" := rfl

/-- The tier part of the code's discount computation coincides with the
spec-worded tier component at every membership string and subtotal. -/
lemma tier_discount_eq_spec (m : String) (s : ℚ) :
    tier_discount m s = spec_tier_component m s := by
  by_cases h1 : m = "gold"
  · simp [tier_discount, tier_rates, spec_tier_component, h1]
  · by_cases h2 : m = "platinum" <;>
      simp [tier_discount, tier_rates, spec_tier_component, h1, h2]

/-- The discount rule returns either no warning or exactly the
"Unknown coupon" warning. -/
lemma discount_warnings_cases (inv : Invoice) (s : ℚ) :
    (calculate_discount inv s).2 = [] ∨
    (calculate_discount inv s).2 = ["Unknown coupon"] := by
  cases hc : inv.coupon with
  | none => left; simp [calculate_discount, hc]
  | some c =>
    by_cases hb : c ≠ "" ∧ strip c ≠ ""
    · cases hr : coupon_rate (strip c) with
      | none => right; simp [calculate_discount, hc, hb, hr]
      | some r => left; simp [calculate_discount, hc, hb, hr]
    · left; simp [calculate_discount, hc, hb]

/-- When validation passes, every item has positive quantity and
non-negative unit price. -/
lemma valid_items (inv : Invoice) (h : validate inv = []) :
    ∀ it ∈ inv.items, 0 < it.qty ∧ 0 ≤ it.unit_price := by
  intro it hit
  simp [validate, List.append_eq_nil] at h
  obtain ⟨-, -, -, h4⟩ := h
  have hone := h4 it hit
  simp [validateItem, List.append_eq_nil] at hone
  obtain ⟨-, h2, h3, -⟩ := hone
  exact ⟨h2, h3⟩

/-- Subtotal and fragile fee are non-negative when every item has positive
quantity and non-negative unit price. -/
lemma base_costs_nonneg (items : List LineItem)
    (h : ∀ it ∈ items, 0 < it.qty ∧ 0 ≤ it.unit_price) :
    0 ≤ (calculate_base_costs items).1 ∧ 0 ≤ (calculate_base_costs items).2 := by
  induction items with
  | nil => simp [calculate_base_costs]
  | cons a l ih =>
    obtain ⟨ha, hl⟩ := List.forall_mem_cons.mp h
    obtain ⟨ih1, ih2⟩ := ih hl
    have hq : (0 : ℚ) ≤ (a.qty : ℚ) := by exact_mod_cast ha.1.le
    constructor
    · simpa [calculate_base_costs] using
        add_nonneg (mul_nonneg ha.2 hq) ih1
    · have hf : (0 : ℚ) ≤ (if a.fragile then 5 * (a.qty : ℚ) else 0) := by
        split_ifs
        · exact mul_nonneg (by norm_num) hq
        · exact le_rfl
      simpa [calculate_base_costs] using add_nonneg hf ih2

/-- For a non-negative subtotal the computed discount never exceeds the
subtotal: the tier part is at most 5% of it (or a flat 20 only when the
subtotal exceeds 3000) and the coupon part at most 20% of it. -/
lemma discount_le_subtotal (inv : Invoice) (s : ℚ) (hs : 0 ≤ s) :
    (calculate_discount inv s).1 ≤ s := by
  have h1 : tier_discount inv.membership s ≤ s * (5/100) ∨
      (3000 < s ∧ tier_discount inv.membership s = 20) ∨
      tier_discount inv.membership s = 0 := by
    by_cases hg : inv.membership = "gold"
    · left
      simp [tier_discount, tier_rates, hg]
      nlinarith
    · by_cases hp : inv.membership = "platinum"
      · left
        simp [tier_discount, tier_rates, hg, hp]
      · by_cases h3 : 3000 < s
        · exact Or.inr (Or.inl ⟨h3, by simp [tier_discount, tier_rates, hg, hp, h3]⟩)
        · exact Or.inr (Or.inr (by simp [tier_discount, tier_rates, hg, hp, h3]))
  have h2 : ∃ c, (calculate_discount inv s).1 = tier_discount inv.membership s + c ∧
      0 ≤ c ∧ c ≤ s * (1/5) := by
    cases hc : inv.coupon with
    | none => exact ⟨0, by simp [calculate_discount, hc], le_rfl, by nlinarith⟩
    | some cc =>
      by_cases hb : cc ≠ "" ∧ strip cc ≠ ""
      · cases hr : coupon_rate (strip cc) with
        | none => exact ⟨0, by simp [calculate_discount, hc, hb, hr], le_rfl, by nlinarith⟩
        | some r =>
          refine ⟨s * r, by simp [calculate_discount, hc, hb, hr], ?_, ?_⟩
          · have hr' : r = 10/100 ∨ r = 20/100 ∨ r = 5/100 := by
              unfold coupon_rate at hr
              split_ifs at hr <;> simp_all
            rcases hr' with h | h | h <;> subst h <;> nlinarith
          · have hr' : r = 10/100 ∨ r = 20/100 ∨ r = 5/100 := by
              unfold coupon_rate at hr
              split_ifs at hr <;> simp_all
            rcases hr' with h | h | h <;> subst h <;> nlinarith
      · exact ⟨0, by simp [calculate_discount, hc, hb], le_rfl, by nlinarith⟩
  obtain ⟨c, hcd, hc0, hc5⟩ := h2
  rcases h1 with ht | ⟨h3, ht⟩ | ht <;> rw [hcd] <;> nlinarith

/-- Every entry of the shipping fee table is non-negative. -/
lemma shipping_nonneg (country : String) (s : ℚ) :
    0 ≤ calculate_shipping country s := by
  unfold calculate_shipping shipping_rates
  split_ifs <;> try norm_num
  all_goals split_ifs <;> norm_num

/-- Tax on a non-negative taxable amount is non-negative for every country. -/
lemma tax_nonneg_of (country : String) (x : ℚ) (hx : 0 ≤ x) :
    0 ≤ calculate_tax country x := by
  unfold calculate_tax
  split_ifs <;> · simp only; nlinarith

/-- C1 (counterexample): on the C1 scenario invoice the pipeline does NOT
return total 123 with no warnings — subtotal exactly 100 is not `< 100`, so
the US shipping fee is 8, not 15. -/
theorem c1_counterexample :
    compute_total c1_invoice ≠ Except.ok ((123 : ℚ), ([] : List String)) := by
  simp [compute_total, c1_invoice, validate, validateItem, calculate_base_costs,
    calculate_discount, tier_discount, tier_rates, coupon_rate, calculate_shipping,
    shipping_rates, calculate_tax]
  norm_num

/-- C1 (amended): for the invoice with exactly one item (sku "SKU1",
category "book", unit price 100, qty 1, not fragile), country "US",
membership "none", and no coupon, `compute_total` returns total 116
(subtotal 100 + shipping 8 + tax 8; subtotal exactly 100 falls in the
second US shipping tier) and an empty warnings list. -/
theorem c1_scenario_total :
    compute_total c1_invoice = Except.ok ((116 : ℚ), ([] : List String)) := by
  simp [compute_total, c1_invoice, validate, validateItem, calculate_base_costs,
    calculate_discount, tier_discount, tier_rates, coupon_rate, calculate_shipping,
    shipping_rates, calculate_tax]
  norm_num

/-- C2: for country "US" the shipping fee is 15 for every subtotal strictly
below 100, 8 for every subtotal at least 100 and strictly below 300, and 0
for every subtotal at least 300. -/
theorem c2_us_shipping_tiers (s : ℚ) :
    (s < 100 → calculate_shipping "US" s = 15) ∧
    (100 ≤ s → s < 300 → calculate_shipping "US" s = 8) ∧
    (300 ≤ s → calculate_shipping "US" s = 0) := by
  refine ⟨fun h => ?_, fun h1 h2 => ?_, fun h => ?_⟩
  · simp [calculate_shipping, h]
  · simp [calculate_shipping, not_lt.mpr h1, h2]
  · simp [calculate_shipping, not_lt.mpr (by linarith : (100 : ℚ) ≤ s),
      not_lt.mpr h]

/-- C2 witness: the boundary cases subtotal 100 → fee 8 and subtotal 300 →
fee 0, plus subtotal 99 → fee 15. -/
theorem c2_us_shipping_tiers_witness :
    calculate_shipping "US" 100 = 8 ∧ calculate_shipping "US" 300 = 0 ∧
    calculate_shipping "US" 99 = 15 :=
  ⟨(c2_us_shipping_tiers 100).2.1 (by norm_num) (by norm_num),
   (c2_us_shipping_tiers 300).2.2 (by norm_num),
   (c2_us_shipping_tiers 99).1 (by norm_num)⟩

/-- C5: for the invoice with exactly one item (unit price 1000, qty 1,
category "book", not fragile), country "TH", membership "gold", coupon
"VIP20", `compute_total` returns total 823.9 = 8239/10 (subtotal 1000,
tier discount 30, coupon discount 200, shipping 0, tax 7% of 770 = 53.9)
and an empty warnings list. -/
theorem c5_scenario_total :
    compute_total c5_invoice = Except.ok ((8239/10 : ℚ), ([] : List String)) := by
  have h1 : strip "VIP20" = "VIP20" := rfl
  simp [compute_total, c5_invoice, validate, validateItem, calculate_base_costs,
    calculate_discount, tier_discount, tier_rates, coupon_rate, calculate_shipping,
    shipping_rates, calculate_tax, h1]
  norm_num

/-- C6: for every subtotal, the shipping fee is: for "TH", 60 strictly below
500 and 0 at or above; for "JP", 600 strictly below 4000 and 0 at or above;
for any country other than "TH"/"JP"/"US" (matched case-sensitively), 25
strictly below 200 and 0 at or above — all comparisons strict `<`. -/
theorem c6_shipping_table (country : String) (s : ℚ) :
    (s < 500 → calculate_shipping "TH" s = 60) ∧
    (500 ≤ s → calculate_shipping "TH" s = 0) ∧
    (s < 4000 → calculate_shipping "JP" s = 600) ∧
    (4000 ≤ s → calculate_shipping "JP" s = 0) ∧
    (country ≠ "TH" → country ≠ "JP" → country ≠ "US" →
      (s < 200 → calculate_shipping country s = 25) ∧
      (200 ≤ s → calculate_shipping country s = 0)) := by
  refine ⟨fun h => ?_, fun h => ?_, fun h => ?_, fun h => ?_,
    fun hTH hJP hUS => ⟨fun h => ?_, fun h => ?_⟩⟩
  · simp [calculate_shipping, shipping_rates, h]
  · simp [calculate_shipping, shipping_rates, not_lt.mpr h]
  · simp [calculate_shipping, shipping_rates, h]
  · simp [calculate_shipping, shipping_rates, not_lt.mpr h]
  · simp [calculate_shipping, shipping_rates, hTH, hJP, hUS, h]
  · simp [calculate_shipping, shipping_rates, hTH, hJP, hUS, not_lt.mpr h]

/-- C6 witness: "TH" at exactly 500 ships free; lowercase "th" is not
normalized and falls to the default tier (25 below 200, 0 at 200);
"JP" below 4000 ships at 600. -/
theorem c6_shipping_table_witness :
    calculate_shipping "TH" 500 = 0 ∧ calculate_shipping "th" 100 = 25 ∧
    calculate_shipping "th" 200 = 0 ∧ calculate_shipping "JP" 3999 = 600 :=
  ⟨(c6_shipping_table "th" 500).2.1 (by norm_num),
   ((c6_shipping_table "th" 100).2.2.2.2 (by decide) (by decide) (by decide)).1
     (by norm_num),
   ((c6_shipping_table "th" 200).2.2.2.2 (by decide) (by decide) (by decide)).2
     (by norm_num),
   (c6_shipping_table "th" 3999).2.2.1 (by norm_num)⟩

/-- C3: `compute_total` fails if and only if the validator reports at least
one problem, in which case the error message is all problem strings joined
with "; "; an invoice with an empty items list fails with a message
containing "Invoice must contain items", and no total is computed. -/
theorem c3_validation_error (inv : Invoice) :
    ((∃ e, compute_total inv = Except.error e) ↔ validate inv ≠ []) ∧
    (validate inv ≠ [] →
      compute_total inv = Except.error (String.intercalate "; " (validate inv))) ∧
    (inv.items = [] → ∃ pre post,
      compute_total inv = Except.error (pre ++ "Invoice must contain items" ++ post)) := by
  have herr : validate inv ≠ [] →
      compute_total inv = Except.error (String.intercalate "; " (validate inv)) := by
    intro h; simp [compute_total, h]
  have hok : validate inv = [] → ∃ r, compute_total inv = Except.ok r := by
    intro h
    unfold compute_total
    rw [h]
    simp
  refine ⟨⟨?_, fun h => ⟨_, herr h⟩⟩, herr, ?_⟩
  · rintro ⟨e, he⟩ h0
    obtain ⟨r, hr⟩ := hok h0
    rw [he] at hr
    exact Except.noConfusion hr
  · intro hitems
    rw [show validate inv =
        (if inv.invoice_id = "" then ["Missing invoice_id"] else []) ++
        (if inv.customer_id = "" then ["Missing customer_id"] else []) ++
        ["Invoice must contain items"] from by simp [validate, hitems]] at herr
    by_cases h1 : inv.invoice_id = "" <;> by_cases h2 : inv.customer_id = "" <;>
      simp only [h1, h2, if_true, if_false, reduceIte, List.nil_append,
        List.cons_append, List.append_nil, ne_eq, List.cons_ne_nil,
        not_false_iff, forall_true_left, true_implies] at herr
    · exact ⟨"Missing invoice_id; Missing customer_id; ", "", by rw [herr]; rfl⟩
    · exact ⟨"Missing invoice_id; ", "", by rw [herr]; rfl⟩
    · exact ⟨"Missing customer_id; ", "", by rw [herr]; rfl⟩
    · exact ⟨"", "", by rw [herr]; rfl⟩

/-- C3 witness: the empty-items invoice fails validation, the error message
is the "; "-joined problem list, and it contains "Invoice must contain
items". -/
theorem c3_validation_error_witness :
    validate c3_invoice ≠ [] ∧
    compute_total c3_invoice =
      Except.error (String.intercalate "; " (validate c3_invoice)) ∧
    ∃ pre post, compute_total c3_invoice =
      Except.error (pre ++ "Invoice must contain items" ++ post) :=
  ⟨by decide, (c3_validation_error c3_invoice).2.1 (by decide),
   (c3_validation_error c3_invoice).2.2 rfl⟩

/-- C4: for every invoice and subtotal, the computed discount is the sum of
the spec's tier component and coupon component, both taken against the same
original subtotal (discounts do not compound). -/
theorem c4_discount_components (inv : Invoice) (s : ℚ) :
    (calculate_discount inv s).1 =
      spec_tier_component inv.membership s + spec_coupon_component inv.coupon s := by
  cases hc : inv.coupon with
  | none => simp [calculate_discount, hc, spec_coupon_component, tier_discount_eq_spec]
  | some c =>
    by_cases hb : c ≠ "" ∧ strip c ≠ ""
    · cases hr : coupon_rate (strip c) <;>
        simp [calculate_discount, hc, hb, hr, spec_coupon_component,
          tier_discount_eq_spec]
    · have hs : strip c = "" := by
        rcases not_and_or.mp hb with h | h
        · rw [not_not.mp h]; exact strip_empty
        · exact not_not.mp h
      simp [calculate_discount, hc, hb, hs, spec_coupon_component, coupon_rate,
        tier_discount_eq_spec]

/-- C7: the discount rule emits ["Unknown coupon"] exactly when a coupon is
present and non-blank after stripping but its stripped code is not in the
rate table; otherwise no warning; an absent or blank coupon yields the tier
discount alone with no warning; an unknown coupon leaves the discount equal
to the tier component alone. -/
theorem c7_unknown_coupon (inv : Invoice) (s : ℚ) :
    ((calculate_discount inv s).2 = ["Unknown coupon"] ↔
      ∃ c, inv.coupon = some c ∧ strip c ≠ "" ∧ coupon_rate (strip c) = none) ∧
    ((calculate_discount inv s).2 ≠ ["Unknown coupon"] →
      (calculate_discount inv s).2 = []) ∧
    (inv.coupon = none ∨ (∃ c, inv.coupon = some c ∧ strip c = "") →
      calculate_discount inv s = (tier_discount inv.membership s, [])) ∧
    (∀ c, inv.coupon = some c → strip c ≠ "" → coupon_rate (strip c) = none →
      (calculate_discount inv s).1 = tier_discount inv.membership s ∧
      (calculate_discount inv s).2 = ["Unknown coupon"]) := by
  have hnonempty : ∀ c : String, strip c ≠ "" → c ≠ "" := by
    intro c h he
    exact h (he ▸ strip_empty)
  refine ⟨?_, ?_, ?_, ?_⟩
  · constructor
    · intro h
      cases hc : inv.coupon with
      | none => simp [calculate_discount, hc] at h
      | some c =>
        refine ⟨c, rfl, ?_⟩
        by_cases hb : c ≠ "" ∧ strip c ≠ ""
        · cases hr : coupon_rate (strip c) with
          | none => exact ⟨hb.2, rfl⟩
          | some r => simp [calculate_discount, hc, hb, hr] at h
        · simp [calculate_discount, hc, hb] at h
    · rintro ⟨c, hc, hs, hr⟩
      simp [calculate_discount, hc, hs, hnonempty c hs, hr]
  · intro h
    cases hc : inv.coupon with
    | none => simp [calculate_discount, hc]
    | some c =>
      by_cases hb : c ≠ "" ∧ strip c ≠ ""
      · cases hr : coupon_rate (strip c) with
        | none => exact absurd (by simp [calculate_discount, hc, hb, hr]) h
        | some r => simp [calculate_discount, hc, hb, hr]
      · simp [calculate_discount, hc, hb]
  · rintro (hc | ⟨c, hc, hs⟩)
    · simp [calculate_discount, hc]
    · simp [calculate_discount, hc, hs]
  · intro c hc hs hr
    constructor <;> simp [calculate_discount, hc, hs, hnonempty c hs, hr]

/-- C7 witness: coupon "FOO" on a plain invoice leaves the discount equal to
the tier component and produces exactly the "Unknown coupon" warning. -/
theorem c7_unknown_coupon_witness :
    (calculate_discount c7_invoice 100).1 = tier_discount c7_invoice.membership 100 ∧
    (calculate_discount c7_invoice 100).2 = ["Unknown coupon"] :=
  (c7_unknown_coupon c7_invoice 100).2.2.2 "FOO" rfl (by decide) (by decide)

/-- C8: for every successful invoice, the warnings contain "Consider
membership upgrade" if and only if the subtotal strictly exceeds 10000 and
the membership is neither "gold" nor "platinum"; when emitted it is
appended after any coupon warning. -/
theorem c8_upgrade_warning (inv : Invoice) (t : ℚ) (w : List String)
    (h : compute_total inv = Except.ok (t, w)) :
    ("Consider membership upgrade" ∈ w ↔
      10000 < (calculate_base_costs inv.items).1 ∧
      inv.membership ≠ "gold" ∧ inv.membership ≠ "platinum") ∧
    (10000 < (calculate_base_costs inv.items).1 ∧
      inv.membership ≠ "gold" ∧ inv.membership ≠ "platinum" →
      w = (calculate_discount inv (calculate_base_costs inv.items).1).2 ++
        ["Consider membership upgrade"]) := by
  by_cases hv : validate inv = []
  · simp [compute_total, hv] at h
    obtain ⟨-, hw⟩ := h
    by_cases hcond : 10000 < (calculate_base_costs inv.items).1 ∧
        inv.membership ≠ "gold" ∧ inv.membership ≠ "platinum"
    · rw [if_pos (by tauto)] at hw
      subst hw
      exact ⟨⟨fun _ => hcond, fun _ => List.mem_append_right _ (by simp)⟩,
        fun _ => rfl⟩
    · rw [if_neg (by tauto)] at hw
      subst hw
      have hnot : "Consider membership upgrade" ∉
          (calculate_discount inv (calculate_base_costs inv.items).1).2 := by
        rcases discount_warnings_cases inv (calculate_base_costs inv.items).1 with
          hd | hd <;> simp [hd]
      exact ⟨⟨fun hm => absurd hm hnot, fun hc => absurd hc hcond⟩,
        fun hc => absurd hc hcond⟩
  · simp [compute_total, hv] at h

/-- C8 witness: subtotal 11000 with membership "none" produces the
"Consider membership upgrade" warning (appended to the empty coupon warning
list). -/
theorem c8_upgrade_warning_witness :
    "Consider membership upgrade" ∈ (["Consider membership upgrade"] : List String) :=
  ((c8_upgrade_warning c8_invoice (59292/5) ["Consider membership upgrade"] (by
      simp [compute_total, c8_invoice, validate, validateItem, calculate_base_costs,
        calculate_discount, tier_discount, tier_rates, coupon_rate, calculate_shipping,
        shipping_rates, calculate_tax]
      norm_num)).1).mpr
    ⟨by norm_num [calculate_base_costs, c8_invoice], by decide, by decide⟩

/-- C9: for every invoice that passes validation, the discount is at most
the subtotal, the tax (levied on subtotal minus discount) is non-negative,
`compute_total` succeeds, and the returned total equals
subtotal + shipping + fragile fee + tax - discount exactly — the
`max 0` floor never alters the result. -/
theorem c9_discount_bounded_no_clamp (inv : Invoice) (h : validate inv = []) :
    (calculate_discount inv (calculate_base_costs inv.items).1).1 ≤
      (calculate_base_costs inv.items).1 ∧
    0 ≤ calculate_tax inv.country
      ((calculate_base_costs inv.items).1 -
        (calculate_discount inv (calculate_base_costs inv.items).1).1) ∧
    (∃ r, compute_total inv = Except.ok r) ∧
    ∀ t w, compute_total inv = Except.ok (t, w) →
      t = (calculate_base_costs inv.items).1 +
        calculate_shipping inv.country (calculate_base_costs inv.items).1 +
        (calculate_base_costs inv.items).2 +
        calculate_tax inv.country ((calculate_base_costs inv.items).1 -
          (calculate_discount inv (calculate_base_costs inv.items).1).1) -
        (calculate_discount inv (calculate_base_costs inv.items).1).1 := by
  obtain ⟨hs, hf⟩ := base_costs_nonneg inv.items (valid_items inv h)
  have hd := discount_le_subtotal inv (calculate_base_costs inv.items).1 hs
  have htax := tax_nonneg_of inv.country _ (sub_nonneg.mpr hd)
  have hship := shipping_nonneg inv.country (calculate_base_costs inv.items).1
  have hok : ∃ r, compute_total inv = Except.ok r := by
    unfold compute_total
    rw [h]
    simp
  refine ⟨hd, htax, hok, ?_⟩
  intro t w hw
  simp [compute_total, h] at hw
  rw [← hw.1]
  exact max_eq_right (by linarith)

/-- C9 witness: the valid C5 invoice passes validation, its discount (230)
is at most its subtotal (1000), and the returned total 823.9 is the exact
unclamped sum. -/
theorem c9_discount_bounded_no_clamp_witness :
    validate c5_invoice = [] ∧
    (calculate_discount c5_invoice (calculate_base_costs c5_invoice.items).1).1 ≤
      (calculate_base_costs c5_invoice.items).1 ∧
    (∃ r, compute_total c5_invoice = Except.ok r) :=
  ⟨by decide, (c9_discount_bounded_no_clamp c5_invoice (by decide)).1,
   (c9_discount_bounded_no_clamp c5_invoice (by decide)).2.2.1⟩

/-- C10: the warnings of every successful `compute_total` form a
subsequence of ["Unknown coupon", "Consider membership upgrade"]: each
appears at most once, nothing else appears, and "Unknown coupon" comes
first when both appear. -/
theorem c10_warnings_sublist (inv : Invoice) (t : ℚ) (w : List String)
    (h : compute_total inv = Except.ok (t, w)) :
    w.Sublist ["Unknown coupon", "Consider membership upgrade"] := by
  by_cases hv : validate inv = []
  · simp [compute_total, hv] at h
    obtain ⟨-, hw⟩ := h
    rcases discount_warnings_cases inv (calculate_base_costs inv.items).1 with hd | hd <;>
      split_ifs at hw <;> rw [← hw, hd] <;> decide
  · simp [compute_total, hv] at h

/-- C10 witness: the C1 scenario invoice succeeds with the empty warning
list, a subsequence of the two allowed warnings. -/
theorem c10_warnings_sublist_witness :
    ([] : List String).Sublist ["Unknown coupon", "Consider membership upgrade"] :=
  c10_warnings_sublist c1_invoice 116 [] (by
    simp [compute_total, c1_invoice, validate, validateItem, calculate_base_costs,
      calculate_discount, tier_discount, tier_rates, coupon_rate, calculate_shipping,
      shipping_rates, calculate_tax]
    norm_num)

end InvoiceService
